import Mathlib

/-!
Shallow embedding of `metrics/datagov_metrics/cloudgov.py` (the
`CloudGovClient` component of the data.gov repository).

Modelling conventions:
* Python/JSON values are the inductive `Json`; Python `None` is `Json.null`
  (so `token_data.get(k)` on a missing key and a JSON `null` value coincide,
  exactly as in Python).
* The requests `Session` only ever receives the `Authorization` header in
  this program, so the session is modelled by that single optional header;
  the header applying to subsequent requests made through the session is
  implicit in the state.
* Network I/O is externalised: each operation takes the `HttpResult` the
  remote endpoint would produce for its request, and returns — besides its
  Python return value and the updated client — the list of `Effect`s it
  performed, in order (HTTP requests issued, metadata-file reads, and a
  marker for each invocation of `authenticate`).  A transport exception is
  `HttpResult.exception`; a body on which `response.json()` raises is
  `jsonBody := none`.
* The module-level `os.getenv` constants are a function of an explicit
  `Env` record (they are read once at import time; construction itself
  performs no I/O).
-/

namespace DataGov

/-- JSON / Python values. `null` doubles as Python `None`. -/
inductive Json where
  | null
  | bool (b : Bool)
  | num (n : Int)
  | str (s : String)
  | arr (elems : List Json)
  | obj (fields : List (String × Json))

/-- First binding of a key in a JSON object's field list (Python `k in d`
lookup; a Python dict cannot hold duplicates, so first-match is exact). -/
def jfield : List (String × Json) → String → Option Json
  | [], _ => none
  | (k, v) :: fs, key => if k = key then some v else jfield fs key

/-- Python `d.get(k)` on a dict: the stored value, `None` when absent. -/
def dictGet (fields : List (String × Json)) (key : String) : Json :=
  (jfield fields key).getD Json.null

/-- Python `d.get(k, default)` on a dict: the stored value (even when that
value is `None`), `default` only when the key is absent. -/
def dictGetD (fields : List (String × Json)) (key : String) (default : Json) : Json :=
  (jfield fields key).getD default

/-- Python truthiness of a value. -/
def pyTruthy : Json → Bool
  | .null => false
  | .bool b => b
  | .num n => n != 0
  | .str s => s != ""
  | .arr xs => !xs.isEmpty
  | .obj fs => !fs.isEmpty

/-- Python `len(x)`: defined for strings, lists and dicts; `none` models a
`TypeError` being raised. -/
def pyLen : Json → Option Nat
  | .str s => some s.length
  | .arr xs => some xs.length
  | .obj fs => some fs.length
  | _ => none

/-- A single-quote character, kept out of the source text. -/
def sq : String := String.singleton (Char.ofNat 39)

mutual
/-- Python `repr` of a value (string escaping inside quotes is not
reproduced; no claim exercises it). -/
def pyRepr : Json → String
  | .null => "None"
  | .bool b => if b then "True" else "False"
  | .num n => toString n
  | .str s => sq ++ s ++ sq
  | .arr xs => "[" ++ pyReprList xs ++ "]"
  | .obj fs => "\x7b" ++ pyReprFields fs ++ "\x7d"

def pyReprList : List Json → String
  | [] => ""
  | [x] => pyRepr x
  | x :: xs => pyRepr x ++ ", " ++ pyReprList xs

def pyReprFields : List (String × Json) → String
  | [] => ""
  | [(k, v)] => sq ++ k ++ sq ++ ": " ++ pyRepr v
  | (k, v) :: fs => sq ++ k ++ sq ++ ": " ++ pyRepr v ++ ", " ++ pyReprFields fs
end

/-- Python `str(x)`, as used by an f-string: strings unquoted, otherwise
`repr`. -/
def pyStr : Json → String
  | .str s => s
  | j => pyRepr j

/-- Python truthiness of an `Optional[str]` (`not x` is true for `None` and
for the empty string). -/
def optFalsy : Option String → Bool
  | none => true
  | some s => s == ""

/-- An `Optional[str]` as the JSON value it serialises to. -/
def optStrJson : Option String → Json
  | none => Json.null
  | some s => Json.str s

/-- Python `a or b` for `a : Optional[str]`, `b : Optional[str]`. -/
def pyOrOpt (a b : Option String) : Option String :=
  match a with
  | some s => if s == "" then b else some s
  | none => b

/-- Python `a or b` for `a : Optional[str]` and a plain-string `b`. -/
def pyOrStr (a : Option String) (b : String) : String :=
  match a with
  | some s => if s == "" then b else s
  | none => b

/-- An HTTP request leaving the client. -/
inductive Request where
  | post (url : String) (basicAuth : Option (String × String))
      (formData : List (String × String)) (jsonBody : Option Json)
  | get (url : String)

/-- What the remote endpoint does for a request: a response with a status
code, a parsed JSON body (`none` when `response.json()` would raise) and the
raw text, or a transport exception. -/
inductive HttpResult where
  | response (status : Nat) (jsonBody : Option Json) (text : String)
  | exception (msg : String)

/-- Observable effects of an operation, in order. -/
inductive Effect where
  | authCall
  | http (req : Request)
  | fileRead

/-- The local `metadata.json` file: absent, present but unreadable or
unparsable (`open`/`json.load` raises), or present with parsed content. -/
inductive FileState where
  | absent
  | unreadable (msg : String)
  | present (content : Json)

/-- The five environment variables consumed at import time. -/
structure Env where
  cloudgov_api_url : Option String
  cloudgov_api_key : Option String
  cloudgov_api_secret : Option String
  cloudgov_org : Option String
  cloudgov_space : Option String

/-- `os.getenv("CLOUDGOV_API_URL", "https://api.fr.cloud.gov")`. -/
def CLOUDGOV_API_URL (env : Env) : String :=
  env.cloudgov_api_url.getD "https://api.fr.cloud.gov"

/-- `os.getenv("CLOUDGOV_API_KEY")`. -/
def CLOUDGOV_API_KEY (env : Env) : Option String := env.cloudgov_api_key

/-- `os.getenv("CLOUDGOV_API_SECRET")`. -/
def CLOUDGOV_API_SECRET (env : Env) : Option String := env.cloudgov_api_secret

/-- `os.getenv("CLOUDGOV_ORG")`. -/
def CLOUDGOV_ORG (env : Env) : Option String := env.cloudgov_org

/-- `os.getenv("CLOUDGOV_SPACE")`. -/
def CLOUDGOV_SPACE (env : Env) : Option String := env.cloudgov_space

/-- The client state: configuration, the nullable token (a Python value,
`Json.null` for `None`) and the session's `Authorization` header. -/
structure CloudGovClient where
  api_url : String
  api_key : Option String
  api_secret : Option String
  org : Option String
  space : Option String
  token : Json
  authHeader : Option String

/-- `CloudGovClient.__init__`: each argument falls back, by Python `or`, to
the module-level environment constant; token unset; fresh session with no
headers. -/
def CloudGovClient.init (env : Env)
    (api_url api_key api_secret org space : Option String) : CloudGovClient :=
  { api_url := pyOrStr api_url (CLOUDGOV_API_URL env)
  , api_key := pyOrOpt api_key (CLOUDGOV_API_KEY env)
  , api_secret := pyOrOpt api_secret (CLOUDGOV_API_SECRET env)
  , org := pyOrOpt org (CLOUDGOV_ORG env)
  , space := pyOrOpt space (CLOUDGOV_SPACE env)
  , token := Json.null
  , authHeader := none }

/-- The POST issued by `authenticate` to the token endpoint. -/
def authRequest (c : CloudGovClient) : Request :=
  Request.post (c.api_url ++ "/oauth/token")
    (some (c.api_key.getD "", c.api_secret.getD ""))
    [("grant_type", "client_credentials")] none

/-- `CloudGovClient.authenticate`: fail fast on falsy key/secret, else one
POST to `{api_url}/oauth/token`; on HTTP 200 with a JSON dict body, store
`token_data.get("access_token")` as the token and set the session header
`Authorization: Bearer {token}` (an f-string, so a missing token yields the
literal `Bearer None`), returning `True`; every other outcome (non-200
status, transport exception, unparsable body, `.get` on a non-dict raising)
is caught and returns `False` with the client unchanged. -/
def authenticate (c : CloudGovClient) (resp : HttpResult) :
    Bool × CloudGovClient × List Request :=
  if optFalsy c.api_key || optFalsy c.api_secret then
    (false, c, [])
  else
    match resp with
    | .exception _ => (false, c, [authRequest c])
    | .response status jsonBody _ =>
      if status = 200 then
        match jsonBody with
        | none => (false, c, [authRequest c])
        | some tokenData =>
          match tokenData with
          | .obj fs =>
            let tok := dictGet fs "access_token"
            (true,
             { c with token := tok
                    , authHeader := some ("Bearer " ++ pyStr tok) },
             [authRequest c])
          | _ => (false, c, [authRequest c])
      else (false, c, [authRequest c])

/-- The `try` block of `get_datasets`: one GET to `{api_url}/v3/apps`; on
HTTP 200 return `data.get("resources", [])` (any raise — `response.json()`,
`.get` on a non-dict, `len()` in the confirmation print — is caught and
yields `[]`); any other status or a transport exception yields `[]`. -/
def get_datasets_try (c : CloudGovClient) (resp : HttpResult) :
    Json × List Effect :=
  let eff := [Effect.http (Request.get (c.api_url ++ "/v3/apps"))]
  match resp with
  | .exception _ => (Json.arr [], eff)
  | .response status jsonBody _ =>
    if status = 200 then
      match jsonBody with
      | none => (Json.arr [], eff)
      | some data =>
        match data with
        | .obj fs =>
          let datasets := dictGetD fs "resources" (Json.arr [])
          match pyLen datasets with
          | none => (Json.arr [], eff)
          | some _ => (datasets, eff)
        | _ => (Json.arr [], eff)
    else (Json.arr [], eff)

/-- `CloudGovClient.get_datasets`: when the token is falsy, call
`authenticate` first and return `[]` if it fails; otherwise run the listing
request. -/
def get_datasets (c : CloudGovClient) (authResp listResp : HttpResult) :
    Json × CloudGovClient × List Effect :=
  if pyTruthy c.token then
    ((get_datasets_try c listResp).1, c, (get_datasets_try c listResp).2)
  else
    let A := authenticate c authResp
    if A.1 then
      ((get_datasets_try A.2.1 listResp).1, A.2.1,
       Effect.authCall :: A.2.2.map Effect.http
         ++ (get_datasets_try A.2.1 listResp).2)
    else
      (Json.arr [], A.2.1, Effect.authCall :: A.2.2.map Effect.http)

/-- `CloudGovClient._load_user_metadata`: read `metadata.json`; a missing
file or any raise yields `{}`. -/
def load_user_metadata : FileState → Json
  | .absent => Json.obj []
  | .unreadable _ => Json.obj []
  | .present content => content

/-- Python `not metadata` on the `Optional[Dict]` argument of
`release_dataset`: true for `None` and for any falsy dict. -/
def metadataFalsy : Option Json → Bool
  | none => true
  | some m => !pyTruthy m

/-- The JSON body `release_data` POSTed by `release_dataset`. -/
def releasePayload (c : CloudGovClient) (dataset_id : String)
    (metadata : Json) : Json :=
  Json.obj
    [ ("dataset_id", Json.str dataset_id)
    , ("status", Json.str "released")
    , ("metadata", metadata)
    , ("org", optStrJson c.org)
    , ("space", optStrJson c.space) ]

/-- Success check of `release_dataset`: `status_code in [200, 201, 202]`. -/
def releaseStatusOk : HttpResult → Bool
  | .response status _ _ => status = 200 || status = 201 || status = 202
  | .exception _ => false

/-- The `try` block of `release_dataset`: load the local metadata when the
argument is falsy, POST the payload to `{api_url}/v3/datasets/{id}/release`,
succeed exactly on status 200/201/202; a transport exception is caught and
returns `False`. -/
def release_try (c : CloudGovClient) (dataset_id : String)
    (metadata : Option Json) (file : FileState) (resp : HttpResult) :
    Bool × List Effect :=
  if metadataFalsy metadata then
    (releaseStatusOk resp,
     [Effect.fileRead,
      Effect.http (Request.post
        (c.api_url ++ "/v3/datasets/" ++ dataset_id ++ "/release")
        none [] (some (releasePayload c dataset_id (load_user_metadata file))))])
  else
    (releaseStatusOk resp,
     [Effect.http (Request.post
        (c.api_url ++ "/v3/datasets/" ++ dataset_id ++ "/release")
        none [] (some (releasePayload c dataset_id (metadata.getD Json.null))))])

/-- `CloudGovClient.release_dataset`: when the token is falsy, call
`authenticate` first and return `False` if it fails; otherwise run the
release request. -/
def release_dataset (c : CloudGovClient) (dataset_id : String)
    (metadata : Option Json) (authResp : HttpResult) (file : FileState)
    (resp : HttpResult) : Bool × CloudGovClient × List Effect :=
  if pyTruthy c.token then
    ((release_try c dataset_id metadata file resp).1, c,
     (release_try c dataset_id metadata file resp).2)
  else
    let A := authenticate c authResp
    if A.1 then
      ((release_try A.2.1 dataset_id metadata file resp).1, A.2.1,
       Effect.authCall :: A.2.2.map Effect.http
         ++ (release_try A.2.1 dataset_id metadata file resp).2)
    else
      (false, A.2.1, Effect.authCall :: A.2.2.map Effect.http)

/-- `CloudGovClient.get_connection_status`: a pure accessor; `authenticated`
is `self.token is not None`. -/
def get_connection_status (c : CloudGovClient) : Json :=
  Json.obj
    [ ("api_url", Json.str c.api_url)
    , ("authenticated", Json.bool (match c.token with
        | .null => false
        | _ => true))
    , ("org", optStrJson c.org)
    , ("space", optStrJson c.space) ]

/-- The `authenticated` field reported by `get_connection_status`. -/
def statusAuthenticated (c : CloudGovClient) : Json :=
  match get_connection_status c with
  | .obj fs => dictGet fs "authenticated"
  | _ => Json.null

/-! ### Helper lemmas -/

/-- `authenticate` never changes the configuration fields of the client. -/
theorem authenticate_preserves_config (c : CloudGovClient) (resp : HttpResult) :
    (authenticate c resp).2.1.api_url = c.api_url ∧
    (authenticate c resp).2.1.org = c.org ∧
    (authenticate c resp).2.1.space = c.space := by
  unfold authenticate
  by_cases hc : (optFalsy c.api_key || optFalsy c.api_secret) = true
  · simp [hc]
  · rw [Bool.not_eq_true] at hc
    rcases resp with ⟨status, body, txt⟩ | m
    · by_cases hs : status = 200
      · subst hs
        rcases body with _ | d
        · simp [hc]
        · cases d <;> simp [hc]
      · simp [hc, hs]
    · simp [hc]

/-- Every failing path of `authenticate` returns the client unchanged. -/
theorem authenticate_false_unchanged (c : CloudGovClient) (resp : HttpResult)
    (h : (authenticate c resp).1 = false) : (authenticate c resp).2.1 = c := by
  unfold authenticate at h ⊢
  by_cases hc : (optFalsy c.api_key || optFalsy c.api_secret) = true
  · simp [hc]
  · rw [Bool.not_eq_true] at hc
    rcases resp with ⟨status, body, txt⟩ | m
    · by_cases hs : status = 200
      · subst hs
        rcases body with _ | d
        · simp [hc]
        · cases d <;> simp [hc] at h ⊢
      · simp [hc, hs]
    · simp [hc]

/-- The listing attempt always issues exactly its one GET request. -/
theorem get_datasets_try_eff (c : CloudGovClient) (resp : HttpResult) :
    (get_datasets_try c resp).2
      = [Effect.http (Request.get (c.api_url ++ "/v3/apps"))] := by
  rcases resp with ⟨status, body, txt⟩ | m
  · by_cases hs : status = 200
    · subst hs
      rcases body with _ | d
      · rfl
      · rcases d with _ | b | n | s | xs | fs
        · rfl
        · rfl
        · rfl
        · rfl
        · rfl
        · rcases hl : pyLen (dictGetD fs "resources" (Json.arr [])) with _ | n <;>
            simp [get_datasets_try, hl]
    · simp [get_datasets_try, hs]
  · rfl

/-! ### Claims -/

/-- Claim C1: with key and secret both set (non-empty), a token-endpoint
response of HTTP 200 whose JSON body contains `access_token` T makes
`authenticate` return success, store T as the client's token, set the
session `Authorization` header to `Bearer T` (carried by all subsequent
requests through the session), and `get_connection_status` afterwards
reports `authenticated: true`. -/
theorem C1_authenticate_success_stores_token
    (c : CloudGovClient) (fs : List (String × Json)) (t txt : String)
    (hk : optFalsy c.api_key = false) (hs : optFalsy c.api_secret = false)
    (ht : jfield fs "access_token" = some (Json.str t)) :
    authenticate c (HttpResult.response 200 (some (Json.obj fs)) txt)
      = (true,
         { c with token := Json.str t, authHeader := some ("Bearer " ++ t) },
         [authRequest c])
    ∧ statusAuthenticated
        { c with token := Json.str t, authHeader := some ("Bearer " ++ t) }
      = Json.bool true := by
  constructor
  · simp [authenticate, hk, hs, dictGet, ht, pyStr]
  · rfl

/-- Sample client used by witnesses: credentials configured, unauthenticated. -/
def cFresh : CloudGovClient :=
  ⟨"https://api.example", some "k", some "s", some "org-a", some "space-a",
   Json.null, none⟩

/-- Concrete instance of C1. -/
theorem C1_witness :
    authenticate cFresh
        (HttpResult.response 200
          (some (Json.obj [("access_token", Json.str "T")])) "")
      = (true,
         { cFresh with token := Json.str "T",
                       authHeader := some ("Bearer " ++ "T") },
         [authRequest cFresh])
    ∧ statusAuthenticated
        { cFresh with token := Json.str "T",
                      authHeader := some ("Bearer " ++ "T") }
      = Json.bool true :=
  C1_authenticate_success_stores_token cFresh
    [("access_token", Json.str "T")] "T" "" rfl rfl rfl

/-- Claim C4: with key or secret unset (Python-falsy: `None` or empty),
`authenticate` fails immediately and issues no request at all. -/
theorem C4_missing_credentials_no_network
    (c : CloudGovClient) (resp : HttpResult)
    (h : optFalsy c.api_key = true ∨ optFalsy c.api_secret = true) :
    authenticate c resp = (false, c, []) := by
  unfold authenticate
  rcases h with h | h <;> simp [h]

/-- Concrete instance of C4. -/
theorem C4_witness :
    authenticate { cFresh with api_key := none }
        (HttpResult.response 200
          (some (Json.obj [("access_token", Json.str "T")])) "")
      = (false, { cFresh with api_key := none }, []) :=
  C4_missing_credentials_no_network { cFresh with api_key := none } _
    (Or.inl rfl)

/-- Claim C5: when the token endpoint answers with any non-200 status or the
transport raises, `authenticate` returns failure and the client is unchanged
(token still unset, session headers untouched); moreover, on every failing
call whatsoever the client is unchanged, i.e. headers are mutated only on
success. -/
theorem C5_failed_authenticate_no_mutation
    (c : CloudGovClient) (resp : HttpResult)
    (hr : ∀ b t, resp ≠ HttpResult.response 200 b t) :
    (authenticate c resp).1 = false ∧ (authenticate c resp).2.1 = c ∧
    ∀ r : HttpResult, (authenticate c r).1 = false →
      (authenticate c r).2.1 = c := by
  refine ⟨?_, ?_, fun r h => authenticate_false_unchanged c r h⟩
  · unfold authenticate
    by_cases hc : (optFalsy c.api_key || optFalsy c.api_secret) = true
    · simp [hc]
    · rw [Bool.not_eq_true] at hc
      rcases resp with ⟨status, body, txt⟩ | m
      · have hs : status ≠ 200 := fun h => hr body txt (by rw [h])
        simp [hc, hs]
      · simp [hc]
  · apply authenticate_false_unchanged
    unfold authenticate
    by_cases hc : (optFalsy c.api_key || optFalsy c.api_secret) = true
    · simp [hc]
    · rw [Bool.not_eq_true] at hc
      rcases resp with ⟨status, body, txt⟩ | m
      · have hs : status ≠ 200 := fun h => hr body txt (by rw [h])
        simp [hc, hs]
      · simp [hc]

/-- Concrete instance of C5. -/
theorem C5_witness :
    (authenticate cFresh (HttpResult.response 401 none "denied")).1 = false ∧
    (authenticate cFresh (HttpResult.response 401 none "denied")).2.1 = cFresh ∧
    ∀ r : HttpResult, (authenticate cFresh r).1 = false →
      (authenticate cFresh r).2.1 = cFresh :=
  C5_failed_authenticate_no_mutation cFresh
    (HttpResult.response 401 none "denied")
    (fun b t h => by simp at h)

/-- Claim C10: with credentials present, an HTTP 200 token response whose
JSON object body lacks the `access_token` key makes `authenticate` return
success while the stored token stays unset (`None`), the session header
becomes the literal `Bearer None`, and `get_connection_status` afterwards
reports `authenticated: false` despite the successful return. -/
theorem C10_success_without_access_token
    (c : CloudGovClient) (fs : List (String × Json)) (txt : String)
    (hk : optFalsy c.api_key = false) (hs : optFalsy c.api_secret = false)
    (hmiss : jfield fs "access_token" = none) :
    authenticate c (HttpResult.response 200 (some (Json.obj fs)) txt)
      = (true,
         { c with token := Json.null, authHeader := some "Bearer None" },
         [authRequest c])
    ∧ statusAuthenticated
        { c with token := Json.null, authHeader := some "Bearer None" }
      = Json.bool false := by
  constructor
  · have : ("Bearer " ++ pyStr Json.null) = "Bearer None" := rfl
    simp [authenticate, hk, hs, dictGet, hmiss, this]
  · rfl

/-- Concrete instance of C10. -/
theorem C10_witness :
    authenticate cFresh
        (HttpResult.response 200 (some (Json.obj [("scope", Json.str "x")])) "")
      = (true,
         { cFresh with token := Json.null, authHeader := some "Bearer None" },
         [authRequest cFresh])
    ∧ statusAuthenticated
        { cFresh with token := Json.null, authHeader := some "Bearer None" }
      = Json.bool false :=
  C10_success_without_access_token cFresh [("scope", Json.str "x")] ""
    rfl rfl rfl

/-- A client already holding a token, as reached by a successful earlier
`authenticate`. -/
def cAuthed : CloudGovClient :=
  ⟨"https://api.example", some "k", some "s", some "org-a", some "space-a",
   Json.str "tok", some "Bearer tok"⟩

/-- Claim C9 counterexample: an Authenticated client (token set, status
reports `authenticated: true`) on which the public operation `authenticate`
is called with an HTTP 200 response lacking `access_token` ends with its
token unset — the operation does not leave it Authenticated, refuting the
claimed invariant. -/
theorem C9_counterexample_token_cleared :
    statusAuthenticated cAuthed = Json.bool true
    ∧ (authenticate cAuthed
        (HttpResult.response 200 (some (Json.obj [])) "")).1 = true
    ∧ statusAuthenticated
        (authenticate cAuthed
          (HttpResult.response 200 (some (Json.obj [])) "")).2.1
      = Json.bool false :=
  ⟨rfl, rfl, rfl⟩

/-- Claim C9 (amended): a failed `authenticate` leaves the client unchanged;
while the token is truthy, `get_datasets` and `release_dataset` return the
client unchanged (so it stays Authenticated), and a set token reports
`authenticated: true`; however `authenticate` itself, on an HTTP 200
response lacking `access_token`, replaces a set token with unset, so
Authenticated → Unauthenticated is reachable. -/
theorem C9_amended_state_preservation (c : CloudGovClient) :
    (∀ resp, (authenticate c resp).1 = false → (authenticate c resp).2.1 = c)
    ∧ (pyTruthy c.token = true →
        (∀ a l, (get_datasets c a l).2.1 = c)
        ∧ (∀ id md a file r, (release_dataset c id md a file r).2.1 = c))
    ∧ (c.token ≠ Json.null → statusAuthenticated c = Json.bool true) := by
  refine ⟨fun resp h => authenticate_false_unchanged c resp h, fun h => ⟨?_, ?_⟩, ?_⟩
  · intro a l
    simp [get_datasets, h]
  · intro id md a file r
    simp [release_dataset, h]
  · intro h
    cases ht : c.token <;>
      simp [statusAuthenticated, get_connection_status, dictGet, jfield, ht] at h ⊢

/-- Concrete instance of the amended C9. -/
theorem C9_amended_witness :
    (get_datasets cAuthed (HttpResult.exception "unused")
        (HttpResult.response 200 (some (Json.obj [])) "")).2.1 = cAuthed :=
  ((C9_amended_state_preservation cAuthed).2.1 rfl).1
    (HttpResult.exception "unused")
    (HttpResult.response 200 (some (Json.obj [])) "")

/-- Python `or` keeps a non-empty left operand (optional right). -/
theorem pyOrOpt_some (x : String) (b : Option String) (hx : x ≠ "") :
    pyOrOpt (some x) b = some x := by
  simp [pyOrOpt, hx]

/-- Python `or` falls back on a `None` or empty left operand (optional
right). -/
theorem pyOrOpt_fallback (a : Option String) (b : Option String)
    (ha : a = none ∨ a = some "") : pyOrOpt a b = b := by
  rcases ha with ha | ha <;> simp [pyOrOpt, ha]

/-- Python `or` keeps a non-empty left operand (plain-string right). -/
theorem pyOrStr_some (x : String) (b : String) (hx : x ≠ "") :
    pyOrStr (some x) b = x := by
  simp [pyOrStr, hx]

/-- Python `or` falls back on a `None` or empty left operand (plain-string
right). -/
theorem pyOrStr_fallback (a : Option String) (b : String)
    (ha : a = none ∨ a = some "") : pyOrStr a b = b := by
  rcases ha with ha | ha <;> simp [pyOrStr, ha]

/-- Environment used by the C8 counterexample: only the key variable set. -/
def envKeyOnly : Env := ⟨none, some "k", none, none, none⟩

/-- Claim C8 counterexample: the claim says an explicitly supplied argument
is always used, and that with neither argument nor environment variable a
field is unset.  Both fail: an explicit empty-string `api_key` argument
loses to the environment variable (Python `or` treats it as falsy), and
with nothing set the endpoint field is the hard-coded default rather than
unset. -/
theorem C8_counterexample_argument_precedence :
    (CloudGovClient.init envKeyOnly none (some "") none none none).api_key
        = some "k"
    ∧ (CloudGovClient.init envKeyOnly none (some "") none none none).api_key
        ≠ some ""
    ∧ (CloudGovClient.init ⟨none, none, none, none, none⟩
        none none none none none).api_url = "https://api.fr.cloud.gov" :=
  ⟨rfl, by decide, rfl⟩

/-- Claim C8 (amended): a non-empty explicit argument takes precedence over
the environment variable; a `None` or empty-string argument falls back to
the environment variable (for the endpoint, to the env value with default
`https://api.fr.cloud.gov`); construction is pure and always succeeds with
the token unset and an empty session. -/
theorem C8_amended_config_resolution (env : Env) (u k s o sp : Option String) :
    (∀ x, u = some x → x ≠ "" →
        (CloudGovClient.init env u k s o sp).api_url = x)
    ∧ ((u = none ∨ u = some "") →
        (CloudGovClient.init env u k s o sp).api_url = CLOUDGOV_API_URL env)
    ∧ (∀ x, k = some x → x ≠ "" →
        (CloudGovClient.init env u k s o sp).api_key = some x)
    ∧ ((k = none ∨ k = some "") →
        (CloudGovClient.init env u k s o sp).api_key = CLOUDGOV_API_KEY env)
    ∧ (∀ x, s = some x → x ≠ "" →
        (CloudGovClient.init env u k s o sp).api_secret = some x)
    ∧ ((s = none ∨ s = some "") →
        (CloudGovClient.init env u k s o sp).api_secret
          = CLOUDGOV_API_SECRET env)
    ∧ (∀ x, o = some x → x ≠ "" →
        (CloudGovClient.init env u k s o sp).org = some x)
    ∧ ((o = none ∨ o = some "") →
        (CloudGovClient.init env u k s o sp).org = CLOUDGOV_ORG env)
    ∧ (∀ x, sp = some x → x ≠ "" →
        (CloudGovClient.init env u k s o sp).space = some x)
    ∧ ((sp = none ∨ sp = some "") →
        (CloudGovClient.init env u k s o sp).space = CLOUDGOV_SPACE env)
    ∧ (CloudGovClient.init env u k s o sp).token = Json.null
    ∧ (CloudGovClient.init env u k s o sp).authHeader = none := by
  refine ⟨fun x hx hne => ?_, fun hu => ?_, fun x hx hne => ?_, fun hk => ?_,
    fun x hx hne => ?_, fun hs => ?_, fun x hx hne => ?_, fun ho => ?_,
    fun x hx hne => ?_, fun hsp => ?_, rfl, rfl⟩ <;>
    simp only [CloudGovClient.init]
  · rw [hx, pyOrStr_some x _ hne]
  · rw [pyOrStr_fallback u _ hu]
  · rw [hx, pyOrOpt_some x _ hne]
  · rw [pyOrOpt_fallback k _ hk]
  · rw [hx, pyOrOpt_some x _ hne]
  · rw [pyOrOpt_fallback s _ hs]
  · rw [hx, pyOrOpt_some x _ hne]
  · rw [pyOrOpt_fallback o _ ho]
  · rw [hx, pyOrOpt_some x _ hne]
  · rw [pyOrOpt_fallback sp _ hsp]

/-- Concrete instance of the amended C8: explicit non-empty argument wins,
unsupplied field falls back to the environment. -/
theorem C8_amended_witness :
    (CloudGovClient.init envKeyOnly (some "https://u.example") none
        none none none).api_url = "https://u.example"
    ∧ (CloudGovClient.init envKeyOnly (some "https://u.example") none
        none none none).api_key = CLOUDGOV_API_KEY envKeyOnly :=
  ⟨(C8_amended_config_resolution envKeyOnly (some "https://u.example") none
      none none none).1 "https://u.example" rfl (by decide),
   (C8_amended_config_resolution envKeyOnly (some "https://u.example") none
      none none none).2.2.2.1 (Or.inl rfl)⟩

/-- Claim C6: on an unauthenticated client (token unset), `get_datasets`
performs exactly one authentication attempt, whose requests strictly precede
any list request in the trace; when that attempt fails, the call returns the
empty list and the trace contains the authentication attempt only — zero
list requests. -/
theorem C6_list_auth_gate (c : CloudGovClient) (a l : HttpResult)
    (h : c.token = Json.null) :
    (get_datasets c a l).2.2
      = Effect.authCall :: ((authenticate c a).2.2).map Effect.http
          ++ (if (authenticate c a).1 then
                [Effect.http (Request.get (c.api_url ++ "/v3/apps"))] else [])
    ∧ ((authenticate c a).1 = false →
        get_datasets c a l
          = (Json.arr [], (authenticate c a).2.1,
             Effect.authCall :: ((authenticate c a).2.2).map Effect.http)) := by
  have hf : pyTruthy c.token = false := by rw [h]; rfl
  constructor
  · by_cases hA : (authenticate c a).1 = true
    · have hurl := (authenticate_preserves_config c a).1
      simp [get_datasets, hf, hA, get_datasets_try_eff, hurl]
    · rw [Bool.not_eq_true] at hA
      simp [get_datasets, hf, hA]
  · intro hA
    simp [get_datasets, hf, hA]

/-- Concrete instance of C6: authentication is rejected with HTTP 401, so
the listing returns `[]` and only the one token request is on the wire. -/
theorem C6_witness :
    (get_datasets cFresh (HttpResult.response 401 none "denied")
        (HttpResult.response 200 (some (Json.obj [("resources",
          Json.arr [Json.obj [("guid", Json.str "a")]])])) "")).2.2
      = Effect.authCall
          :: ((authenticate cFresh
                (HttpResult.response 401 none "denied")).2.2).map Effect.http
          ++ (if (authenticate cFresh
                (HttpResult.response 401 none "denied")).1 then
                [Effect.http (Request.get (cFresh.api_url ++ "/v3/apps"))]
              else [])
    ∧ ((authenticate cFresh (HttpResult.response 401 none "denied")).1 = false →
        get_datasets cFresh (HttpResult.response 401 none "denied")
            (HttpResult.response 200 (some (Json.obj [("resources",
              Json.arr [Json.obj [("guid", Json.str "a")]])])) "")
          = (Json.arr [],
             (authenticate cFresh (HttpResult.response 401 none "denied")).2.1,
             Effect.authCall
               :: ((authenticate cFresh
                    (HttpResult.response 401 none "denied")).2.2).map
                  Effect.http)) :=
  C6_list_auth_gate cFresh (HttpResult.response 401 none "denied")
    (HttpResult.response 200 (some (Json.obj [("resources",
      Json.arr [Json.obj [("guid", Json.str "a")]])])) "") rfl

/-- Claim C7: once the listing endpoint is reached (here: the client already
holds a truthy token), `get_datasets` leaves the client unchanged and issues
exactly the one GET; on HTTP 200 it returns the `resources` array of the
body unchanged and in order (the empty list when the key is absent, which is
the `dictGetD` default); on any other status or a transport exception it
returns the empty list.  The embedding is a total function, so the call
never raises. -/
theorem C7_list_results (c : CloudGovClient) (a l : HttpResult)
    (h : pyTruthy c.token = true) :
    (get_datasets c a l).2.1 = c
    ∧ (get_datasets c a l).2.2
        = [Effect.http (Request.get (c.api_url ++ "/v3/apps"))]
    ∧ (∀ fs txt xs, l = HttpResult.response 200 (some (Json.obj fs)) txt →
        dictGetD fs "resources" (Json.arr []) = Json.arr xs →
        (get_datasets c a l).1 = Json.arr xs)
    ∧ (∀ s b txt, l = HttpResult.response s b txt → s ≠ 200 →
        (get_datasets c a l).1 = Json.arr [])
    ∧ (∀ m, l = HttpResult.exception m →
        (get_datasets c a l).1 = Json.arr []) := by
  refine ⟨by simp [get_datasets, h],
    by simp [get_datasets, h, get_datasets_try_eff], ?_, ?_, ?_⟩
  · intro fs txt xs hl hres
    subst hl
    simp [get_datasets, h, get_datasets_try, hres, pyLen]
  · intro s b txt hl hs
    subst hl
    simp [get_datasets, h, get_datasets_try, hs]
  · intro m hl
    subst hl
    simp [get_datasets, h, get_datasets_try]

/-- Concrete instance of C7: two resources come back in order. -/
theorem C7_witness :
    (get_datasets cAuthed (HttpResult.exception "unused")
        (HttpResult.response 200 (some (Json.obj [("resources", Json.arr
          [Json.obj [("guid", Json.str "a")],
           Json.obj [("guid", Json.str "b")]])])) "")).1
      = Json.arr [Json.obj [("guid", Json.str "a")],
                  Json.obj [("guid", Json.str "b")]] :=
  ((C7_list_results cAuthed (HttpResult.exception "unused")
      (HttpResult.response 200 (some (Json.obj [("resources", Json.arr
        [Json.obj [("guid", Json.str "a")],
         Json.obj [("guid", Json.str "b")]])])) "") rfl).2.2.1)
    [("resources", Json.arr [Json.obj [("guid", Json.str "a")],
       Json.obj [("guid", Json.str "b")]])] ""
    [Json.obj [("guid", Json.str "a")], Json.obj [("guid", Json.str "b")]]
    rfl rfl

/-- The release attempt succeeds exactly when the status is 200/201/202. -/
theorem release_try_fst (c : CloudGovClient) (id : String) (md : Option Json)
    (file : FileState) (resp : HttpResult) :
    (release_try c id md file resp).1 = releaseStatusOk resp := by
  unfold release_try
  by_cases hm : metadataFalsy md <;> simp [hm]

/-- The last effect of the release attempt is always its one POST, carrying
the payload built from the given metadata or, when that is falsy, the
loaded one. -/
theorem release_try_last (c : CloudGovClient) (id : String) (md : Option Json)
    (file : FileState) (resp : HttpResult) :
    (release_try c id md file resp).2.getLast?
      = some (Effect.http (Request.post
          (c.api_url ++ "/v3/datasets/" ++ id ++ "/release") none []
          (some (releasePayload c id
            (if metadataFalsy md then load_user_metadata file
             else md.getD Json.null))))) := by
  unfold release_try
  by_cases hm : metadataFalsy md <;> simp [hm]

/-- The release attempt always performs at least one effect. -/
theorem release_try_ne_nil (c : CloudGovClient) (id : String)
    (md : Option Json) (file : FileState) (resp : HttpResult) :
    (release_try c id md file resp).2 ≠ [] := by
  unfold release_try
  by_cases hm : metadataFalsy md <;> simp [hm]

/-- `release_dataset` on a truthy token skips the gate. -/
theorem release_dataset_truthy (c : CloudGovClient) (id : String)
    (md : Option Json) (a : HttpResult) (file : FileState) (resp : HttpResult)
    (h : pyTruthy c.token = true) :
    release_dataset c id md a file resp
      = ((release_try c id md file resp).1, c,
         (release_try c id md file resp).2) := by
  simp [release_dataset, h]

/-- `release_dataset` on a falsy token with a succeeding authentication runs
the release on the re-authenticated client, after the auth requests. -/
theorem release_dataset_auth (c : CloudGovClient) (id : String)
    (md : Option Json) (a : HttpResult) (file : FileState) (resp : HttpResult)
    (hf : pyTruthy c.token = false) (ha : (authenticate c a).1 = true) :
    release_dataset c id md a file resp
      = ((release_try (authenticate c a).2.1 id md file resp).1,
         (authenticate c a).2.1,
         Effect.authCall :: ((authenticate c a).2.2).map Effect.http
           ++ (release_try (authenticate c a).2.1 id md file resp).2) := by
  simp [release_dataset, hf, ha]

/-- The payload only reads the configured org and space of the client. -/
theorem releasePayload_congr (c c' : CloudGovClient) (id : String) (m : Json)
    (ho : c'.org = c.org) (hs : c'.space = c.space) :
    releasePayload c' id m = releasePayload c id m := by
  simp [releasePayload, ho, hs]

/-- Claim C2: whenever the gate passes — the client already holds a truthy
token, or authentication succeeds on the way — `release_dataset` POSTs to
`{api_url}/v3/datasets/{id}/release` a body of exactly
`{dataset_id, status: "released", metadata: <given-or-loaded>, org, space}`
as its final request, and returns success exactly when the response status
is 200, 201 or 202 (any other status or a transport exception fails). -/
theorem C2_release_payload_and_status (c : CloudGovClient) (id : String)
    (md : Option Json) (a : HttpResult) (file : FileState) (resp : HttpResult)
    (h : pyTruthy c.token = true ∨
         (pyTruthy c.token = false ∧ (authenticate c a).1 = true)) :
    (release_dataset c id md a file resp).1 = releaseStatusOk resp
    ∧ (release_dataset c id md a file resp).2.2.getLast?
        = some (Effect.http (Request.post
            (c.api_url ++ "/v3/datasets/" ++ id ++ "/release") none []
            (some (releasePayload c id
              (if metadataFalsy md then load_user_metadata file
               else md.getD Json.null))))) := by
  rcases h with ht | ⟨hf, ha⟩
  · rw [release_dataset_truthy c id md a file resp ht]
    exact ⟨release_try_fst c id md file resp, release_try_last c id md file resp⟩
  · rw [release_dataset_auth c id md a file resp hf ha]
    obtain ⟨hu, ho, hs⟩ := authenticate_preserves_config c a
    refine ⟨release_try_fst _ id md file resp, ?_⟩
    dsimp only
    rw [List.getLast?_append_of_ne_nil _ (release_try_ne_nil _ id md file resp),
        release_try_last _ id md file resp, hu,
        releasePayload_congr c (authenticate c a).2.1 id _ ho hs]

/-- Concrete instance of C2: an authenticated client releases `ds1`, the
endpoint answers 202. -/
theorem C2_witness :
    (release_dataset cAuthed "ds1" none (HttpResult.exception "unused")
        FileState.absent (HttpResult.response 202 none "")).1
      = releaseStatusOk (HttpResult.response 202 none "")
    ∧ (release_dataset cAuthed "ds1" none (HttpResult.exception "unused")
        FileState.absent (HttpResult.response 202 none "")).2.2.getLast?
        = some (Effect.http (Request.post
            (cAuthed.api_url ++ "/v3/datasets/" ++ "ds1" ++ "/release")
            none []
            (some (releasePayload cAuthed "ds1"
              (if metadataFalsy none then load_user_metadata FileState.absent
               else (none : Option Json).getD Json.null))))) :=
  C2_release_payload_and_status cAuthed "ds1" none
    (HttpResult.exception "unused") FileState.absent
    (HttpResult.response 202 none "") (Or.inl rfl)

/-- Claim C3 counterexample: the claim states that whenever a metadata
argument is supplied the local file is never read, but a supplied *empty*
dict is Python-falsy, so `if not metadata:` still triggers the file load:
the very first effect of the call is the file read. -/
theorem C3_counterexample_empty_dict_reads_file :
    (release_dataset cAuthed "X" (some (Json.obj []))
        (HttpResult.exception "unused") FileState.absent
        (HttpResult.response 201 none "")).2.2.head?
      = some Effect.fileRead := rfl

/-- Claim C3 (amended): a supplied *non-empty* (truthy) metadata mapping
suppresses the file read and is carried verbatim in the payload; when the
metadata argument is absent (or falsy) the file load is attempted, and a
load failure (file absent or unreadable) yields the empty mapping in the
payload rather than failing the release. -/
theorem C3_amended_metadata_precedence (c : CloudGovClient) (id : String)
    (a : HttpResult) (file : FileState) (resp : HttpResult)
    (h : pyTruthy c.token = true) :
    (∀ m : Json, pyTruthy m = true →
        Effect.fileRead ∉ (release_dataset c id (some m) a file resp).2.2
        ∧ (release_dataset c id (some m) a file resp).2.2.getLast?
            = some (Effect.http (Request.post
                (c.api_url ++ "/v3/datasets/" ++ id ++ "/release") none []
                (some (releasePayload c id m)))))
    ∧ Effect.fileRead ∈ (release_dataset c id none a file resp).2.2
    ∧ (release_dataset c id none a file resp).1 = releaseStatusOk resp
    ∧ ((file = FileState.absent ∨ ∃ e, file = FileState.unreadable e) →
        (release_dataset c id none a file resp).2.2.getLast?
          = some (Effect.http (Request.post
              (c.api_url ++ "/v3/datasets/" ++ id ++ "/release") none []
              (some (releasePayload c id (Json.obj [])))))) := by
  refine ⟨fun m hm => ?_, ?_, ?_, fun hfile => ?_⟩
  · rw [release_dataset_truthy c id (some m) a file resp h]
    have hfalsy : metadataFalsy (some m) = false := by
      simp [metadataFalsy, hm]
    constructor
    · simp [release_try, hfalsy]
    · rw [release_try_last c id (some m) file resp, hfalsy]
      simp
  · rw [release_dataset_truthy c id none a file resp h]
    simp [release_try, metadataFalsy]
  · rw [release_dataset_truthy c id none a file resp h]
    exact release_try_fst c id none file resp
  · rw [release_dataset_truthy c id none a file resp h,
        release_try_last c id none file resp]
    have : load_user_metadata file = Json.obj [] := by
      rcases hfile with hfile | ⟨e, hfile⟩ <;> subst hfile <;> rfl
    simp [metadataFalsy, this]

/-- Concrete instance of the amended C3: explicit non-empty metadata is
carried verbatim and the file is not touched. -/
theorem C3_amended_witness :
    Effect.fileRead ∉ (release_dataset cAuthed "X"
        (some (Json.obj [("k", Json.str "v")])) (HttpResult.exception "unused")
        (FileState.present (Json.obj [("ignored", Json.bool true)]))
        (HttpResult.response 201 none "")).2.2
    ∧ (release_dataset cAuthed "X"
        (some (Json.obj [("k", Json.str "v")])) (HttpResult.exception "unused")
        (FileState.present (Json.obj [("ignored", Json.bool true)]))
        (HttpResult.response 201 none "")).2.2.getLast?
        = some (Effect.http (Request.post
            (cAuthed.api_url ++ "/v3/datasets/" ++ "X" ++ "/release") none []
            (some (releasePayload cAuthed "X"
              (Json.obj [("k", Json.str "v")]))))) :=
  (C3_amended_metadata_precedence cAuthed "X" (HttpResult.exception "unused")
      (FileState.present (Json.obj [("ignored", Json.bool true)]))
      (HttpResult.response 201 none "") rfl).1
    (Json.obj [("k", Json.str "v")]) rfl

end DataGov
